import Mathlib

/-!
Verification development for the polyid-auth repository.

Shallow embedding of the Go sources:
  internal/storage/nosql.go   : NoSQLStorage over an abstract NoSQLClient
  internal/auth/grpc.go       : the gRPC AuthService handlers
  the MFA HTTP handler (VerifyTOTP and its storage helper stubs)

Modelling conventions:
  * Machine time is an explicit `now : Int` parameter (Unix seconds), standing
    for each call to time.Now().Unix() in the Go code.
  * The abstract NoSQLClient is modelled by an association table from key to
    `GetResult`.  A Go driver call Get(table, key) returns a pair
    (map[string]interface, error); the three observable outcomes are:
      - `found it`  : non-nil map, nil error (a stored record)
      - `nilResult` : nil map, nil error
      - `getErr`    : non-nil error
    Keys absent from the association table behave as `nilResult`.  Which of
    `nilResult` / `getErr` a driver yields for a missing key is a property of
    the concrete driver, so states with either convention are representable.
  * Driver write failures (the ErrInternal wrap of a failed Put/Delete) are
    not modelled: `clientPut` and `clientDelete` always succeed.  None of the
    verified claims concern driver write failures.
  * Record payloads are the `Item` inductive rather than raw JSON maps.  The
    Go type assertions in GetTemporaryValue correspond to the record being a
    `tempItem`; the mapToStruct JSON round trip in GetUser silently ignores
    unknown fields, so decoding a non-user record yields the zero User with a
    nil error, which the embedding reproduces.
-/

namespace PolyId

/-- User record, from internal/storage (storage.User); timestamps as Unix seconds. -/
structure User where
  id : String
  email : String
  createdAt : Int
  updatedAt : Int
deriving DecidableEq

/-- A stored record in the NoSQL table: either a user row or a temporary value
row as written by StoreTemporaryValue (fields value, expires_at). -/
inductive Item where
  | userItem (u : User)
  | tempItem (value : String) (expiresAt : Int)
deriving DecidableEq

/-- Observable outcome of NoSQLClient.Get for one key: a stored record,
a nil map with nil error, or a non-nil driver error. -/
inductive GetResult where
  | found (it : Item)
  | nilResult
  | getErr
deriving DecidableEq

/-- Abstract state of the NoSQL client: one table, keyed by string. -/
structure ClientState where
  table : List (String × GetResult)
deriving DecidableEq

/-- Replace (or append) the entry for a key, keeping table order. -/
def setEntry : List (String × GetResult) → String → GetResult → List (String × GetResult)
  | [], k, r => [(k, r)]
  | (k0, r0) :: rest, k, r =>
    if k0 = k then (k, r) :: rest else (k0, r0) :: setEntry rest k r

/-- NoSQLClient.Get: look the key up; absent keys behave as a nil map with nil error. -/
def clientGet (s : ClientState) (k : String) : GetResult :=
  match s.table.find? (fun p => p.1 == k) with
  | some p => p.2
  | none => .nilResult

/-- NoSQLClient.Put: store the record under the key (write failures not modelled). -/
def clientPut (s : ClientState) (k : String) (it : Item) : ClientState :=
  ⟨setEntry s.table k (.found it)⟩

/-- NoSQLClient.Delete: after a delete the key reads back as a nil map, nil error. -/
def clientDelete (s : ClientState) (k : String) : ClientState :=
  ⟨setEntry s.table k .nilResult⟩

/-- NoSQLClient.Query on the email index: the stored user rows whose email
matches, in table order (nosql.go GetUserByEmail passes condition
email = :email against email-index). -/
def clientQueryEmail (s : ClientState) (email : String) : List User :=
  s.table.filterMap (fun p =>
    match p.2 with
    | .found (.userItem u) => if u.email = email then some u else none
    | _ => none)

/-- StorageError from internal/storage: a code constant and a message
(the wrapped Err cause is not modelled). -/
structure StorageError where
  code : String
  message : String
deriving DecidableEq

def ErrNotFound : String := "NOT_FOUND"
def ErrAlreadyExists : String := "ALREADY_EXISTS"
def ErrInternal : String := "INTERNAL_ERROR"

/-- A Go-style (value, error) return: exactly one of the two is meaningful. -/
inductive Outcome (ε α : Type) where
  | ok (a : α)
  | err (e : ε)
deriving DecidableEq

/-- NoSQLStorage.CreateUser (nosql.go lines 38 to 59): existence is decided
solely by whether the driver Get on user.ID returned a nil error; a nil
error (found record OR nil map) yields AlreadyExists with no write, a
driver error falls through to the Put. -/
def createUser (s : ClientState) (u : User) : Outcome StorageError Unit × ClientState :=
  match clientGet s u.id with
  | .getErr => (.ok (), clientPut s u.id (.userItem u))
  | _ => (.err ⟨ErrAlreadyExists, "User already exists"⟩, s)

/-- NoSQLStorage.GetUser (nosql.go lines 62 to 90).  A nil map with nil error
is NotFound; a driver error is Internal; decoding a temp record through
mapToStruct ignores its fields and yields the zero User with nil error. -/
def getUser (s : ClientState) (id : String) : Outcome StorageError User :=
  match clientGet s id with
  | .getErr => .err ⟨ErrInternal, "Failed to get user"⟩
  | .nilResult => .err ⟨ErrNotFound, "User not found"⟩
  | .found (.userItem u) => .ok u
  | .found (.tempItem _ _) => .ok ⟨"", "", 0, 0⟩

/-- NoSQLStorage.GetUserByEmail (nosql.go lines 93 to 123): first row of the
email-index query, NotFound on an empty result (driver query failures not
modelled). -/
def getUserByEmail (s : ClientState) (email : String) : Outcome StorageError User :=
  match clientQueryEmail s email with
  | [] => .err ⟨ErrNotFound, "User not found"⟩
  | u :: _ => .ok u

/-- Key prefixing used by the temporary-value operations (fmt.Sprintf temp colon key). -/
def tempKey (k : String) : String := "temp:" ++ k

/-- NoSQLStorage.StoreTemporaryValue (nosql.go lines 169 to 186): writes
value with expires_at = now + expiry seconds under the prefixed key. -/
def storeTemporaryValue (now : Int) (s : ClientState) (key value : String)
    (expirySec : Int) : Outcome StorageError Unit × ClientState :=
  (.ok (), clientPut s (tempKey key) (.tempItem value (now + expirySec)))

/-- NoSQLStorage.GetTemporaryValue (nosql.go lines 189 to 233): driver error
is Internal; nil map is NotFound; a non-temp record fails the expires_at
type assertion (Internal); an expired record (now strictly greater than
expires_at) is deleted and reported NotFound; otherwise the value is
returned. -/
def getTemporaryValue (now : Int) (s : ClientState) (key : String) :
    Outcome StorageError String × ClientState :=
  match clientGet s (tempKey key) with
  | .getErr => (.err ⟨ErrInternal, "Failed to get temporary value"⟩, s)
  | .nilResult => (.err ⟨ErrNotFound, "Temporary value not found"⟩, s)
  | .found (.userItem _) => (.err ⟨ErrInternal, "Invalid expiration time"⟩, s)
  | .found (.tempItem v e) =>
    if now > e then
      (.err ⟨ErrNotFound, "Temporary value expired"⟩, clientDelete s (tempKey key))
    else
      (.ok v, s)

/-! Embedding of the gRPC AuthService handlers (internal/auth/grpc.go).

The AuthService struct holds only a logger: no storage, cache or ceremony
state is wired in, so every handler is a pure function of the request and,
where the Go body calls time.Now, of the explicit clock parameter.  A nil
request pointer is modelled by `Option` on the request. -/

/-- gRPC status codes used by the handlers (google.golang.org/grpc/codes). -/
inductive GrpcCode where
  | invalidArgument
  | notFound
  | alreadyExists
  | unauthenticated
  | permissionDenied
  | resourceExhausted
  | internal
  | unavailable
deriving DecidableEq

/-- A gRPC status error: code plus message. -/
structure GrpcError where
  code : GrpcCode
  message : String
deriving DecidableEq

/-- Proto User message as populated by the handlers (id and email only;
the timestamp fields are never set by grpc.go). -/
structure ApiUser where
  id : String
  email : String
deriving DecidableEq

/-- Proto PasskeyCredential message: id, raw_id bytes, type, response bytes. -/
structure PasskeyCredential where
  id : String
  rawId : List Nat
  credType : String
  response : List Nat
deriving DecidableEq

/-- Proto AuthenticateRequest oneof auth_method. -/
inductive AuthMethod where
  | password (p : String)
  | passkey (c : PasskeyCredential)
deriving DecidableEq

/-- Proto AuthenticateRequest: email, oneof auth method, optional mfa code. -/
structure AuthenticateRequest where
  email : String
  authMethod : Option AuthMethod
  mfaCode : String
deriving DecidableEq

/-- Proto AuthenticateResponse. -/
structure AuthenticateResponse where
  token : String
  expiresAt : Int
  user : Option ApiUser
  requiresMfa : Bool
deriving DecidableEq

/-- AuthService.Authenticate (grpc.go lines 32 to 49): rejects only a nil
request; otherwise returns the dummy token with expiry now + 24h and the
zero values for user and requires_mfa. -/
def authenticate (now : Int) (req : Option AuthenticateRequest) :
    Outcome GrpcError AuthenticateResponse :=
  match req with
  | none => .err ⟨.invalidArgument, "request cannot be nil"⟩
  | some _ => .ok ⟨"dummy-token", now + 24 * 3600, none, false⟩

/-- Proto ValidateTokenRequest. -/
structure ValidateTokenRequest where
  token : String
deriving DecidableEq

/-- Proto ValidateTokenResponse. -/
structure ValidateTokenResponse where
  valid : Bool
  user : Option ApiUser
deriving DecidableEq

/-- AuthService.ValidateToken (grpc.go lines 52 to 71): rejects a nil request
or empty token; otherwise reports Valid true with a dummy user, consulting
no signature, expiry or revocation state. -/
def validateToken (req : Option ValidateTokenRequest) :
    Outcome GrpcError ValidateTokenResponse :=
  match req with
  | none => .err ⟨.invalidArgument, "invalid token"⟩
  | some r =>
    if r.token = "" then .err ⟨.invalidArgument, "invalid token"⟩
    else .ok ⟨true, some ⟨"dummy-user-id", "user@example.com"⟩⟩

/-- Proto RegisterPasskeyRequest. -/
structure RegisterPasskeyRequest where
  userId : String
deriving DecidableEq

/-- Proto PasskeyOptions message. -/
structure PasskeyOptions where
  challenge : String
  rpId : String
  rpName : String
  allowedCredentials : List String
  userVerification : String
  attestation : String
deriving DecidableEq

/-- Proto RegisterPasskeyResponse. -/
structure RegisterPasskeyResponse where
  options : Option PasskeyOptions
deriving DecidableEq

/-- AuthService.RegisterPasskey (grpc.go lines 74 to 92): rejects a nil
request or empty user_id; otherwise returns fixed options with the literal
challenge dummy-challenge and the remaining fields at their zero values.
No user lookup and no session storage happens. -/
def registerPasskey (req : Option RegisterPasskeyRequest) :
    Outcome GrpcError RegisterPasskeyResponse :=
  match req with
  | none => .err ⟨.invalidArgument, "invalid request"⟩
  | some r =>
    if r.userId = "" then .err ⟨.invalidArgument, "invalid request"⟩
    else .ok ⟨some ⟨"dummy-challenge", "auth.polyid.io", "PolyID", [], "", ""⟩⟩

/-- Proto VerifyPasskeyRequest: user_id and a credential message pointer. -/
structure VerifyPasskeyRequest where
  userId : String
  credential : Option PasskeyCredential
deriving DecidableEq

/-- Proto VerifyPasskeyResponse. -/
structure VerifyPasskeyResponse where
  success : Bool
deriving DecidableEq

/-- AuthService.VerifyPasskey (grpc.go lines 95 to 109): rejects a nil
request, empty user_id or nil credential; otherwise reports Success true.
The request carries no session handle and no stored challenge is read,
verified or consumed. -/
def verifyPasskey (req : Option VerifyPasskeyRequest) :
    Outcome GrpcError VerifyPasskeyResponse :=
  match req with
  | none => .err ⟨.invalidArgument, "invalid request"⟩
  | some r =>
    if r.userId = "" ∨ r.credential = none then .err ⟨.invalidArgument, "invalid request"⟩
    else .ok ⟨true⟩

/-- Proto GetMFAMethodsRequest. -/
structure GetMFAMethodsRequest where
  userId : String
deriving DecidableEq

/-- Proto MFAMethod message: id, type, created_at. -/
structure MFAMethodMsg where
  id : String
  mtype : String
  createdAt : Int
deriving DecidableEq

/-- Proto GetMFAMethodsResponse. -/
structure GetMFAMethodsResponse where
  methods : List MFAMethodMsg
deriving DecidableEq

/-- AuthService.GetMFAMethods (grpc.go lines 166 to 186): rejects a nil
request or empty user_id; otherwise returns the fixed dummy method list
whose created_at field is stamped with the current time. -/
def getMFAMethods (now : Int) (req : Option GetMFAMethodsRequest) :
    Outcome GrpcError GetMFAMethodsResponse :=
  match req with
  | none => .err ⟨.invalidArgument, "invalid request"⟩
  | some r =>
    if r.userId = "" then .err ⟨.invalidArgument, "invalid request"⟩
    else .ok ⟨[⟨"dummy-method-id", "totp", now⟩]⟩

/-! Embedding of the MFA HTTP handler (package mfa): VerifyTOTP and the
storage helper stubs it calls.  The helpers are literal code of the
repository: getTemporarySecret returns the empty string and
storeVerifiedTOTPSecret returns a nil error, both marked TODO.  The TOTP
library call totp.Validate is an external collaborator and is passed in as
an abstract boolean function. -/

/-- HTTP reply of the gin handlers: status class plus the body message. -/
inductive HttpResp where
  | okMsg (body : String)
  | badRequestErr (body : String)
  | unauthorizedErr (body : String)
  | internalErr (body : String)
deriving DecidableEq

/-- Stubbed helper getTemporarySecret: always returns the empty string. -/
def getTemporarySecret (_userID : String) : String := ""

/-- Stubbed helper storeVerifiedTOTPSecret: returns its error value, which
the stub body fixes to nil (none). -/
def storeVerifiedTOTPSecret (_userID _secret : String) : Option String := none

/-- Handler.VerifyTOTP (the MFA handler, lines 243 to 267 of the combined
events source file): empty temporary secret yields 400, a failed
totp.Validate yields 401, a failed permanent store yields 500, otherwise
200.  No branch deletes the temporary secret. -/
def verifyTOTP (validate : String → String → Bool) (userID code : String) : HttpResp :=
  let secret := getTemporarySecret userID
  if secret = "" then .badRequestErr "No TOTP setup in progress"
  else if validate code secret then
    match storeVerifiedTOTPSecret userID secret with
    | some _ => .internalErr "Failed to complete TOTP setup"
    | none => .okMsg "TOTP setup completed"
  else .unauthorizedErr "Invalid TOTP code"

/-! Claim theorems. -/

/-- C2: GetTemporaryValue never returns a value whose expires_at has passed.
A get on an expired value deletes the stored entry and fails with code
NOT_FOUND, the same NotFound outcome a get on a never-stored key (which the
driver reports as a nil map with nil error) produces; and whenever a value
is returned, its stored expires_at is at least the current time. -/
theorem C2_get_temporary_value_expiry_contract :
    (∀ (now : Int) (s : ClientState) (k v : String) (e : Int),
        clientGet s (tempKey k) = .found (.tempItem v e) → e < now →
        getTemporaryValue now s k =
          (.err ⟨ErrNotFound, "Temporary value expired"⟩, clientDelete s (tempKey k)))
    ∧ (∀ (now : Int) (s : ClientState) (k : String),
        clientGet s (tempKey k) = .nilResult →
        getTemporaryValue now s k = (.err ⟨ErrNotFound, "Temporary value not found"⟩, s))
    ∧ (∀ (now : Int) (s : ClientState) (k v : String),
        (getTemporaryValue now s k).1 = .ok v →
        ∃ e : Int, clientGet s (tempKey k) = .found (.tempItem v e) ∧ now ≤ e) := by
  refine ⟨?_, ?_, ?_⟩
  · intro now s k v e hget hlt
    unfold getTemporaryValue
    rw [hget]
    simp [hlt]
  · intro now s k hget
    unfold getTemporaryValue
    rw [hget]
  · intro now s k v hok
    unfold getTemporaryValue at hok
    cases hg : clientGet s (tempKey k) with
    | getErr => rw [hg] at hok; cases hok
    | nilResult => rw [hg] at hok; cases hok
    | found it =>
      cases it with
      | userItem u => rw [hg] at hok; cases hok
      | tempItem v0 e =>
        rw [hg] at hok
        by_cases hlt : now > e
        · simp [hlt] at hok
        · simp [hlt] at hok
          subst hok
          exact ⟨e, rfl, le_of_not_lt hlt⟩

def sC2 : ClientState := ⟨[("temp:k", .found (.tempItem "v" 5))]⟩

/-- C2 witness: at time 10 a value stored with expires_at 5 is expired, so the
get deletes it and reports the NOT_FOUND error. -/
theorem C2_witness :
    getTemporaryValue 10 sC2 "k" =
      (.err ⟨ErrNotFound, "Temporary value expired"⟩, clientDelete sC2 (tempKey "k")) :=
  C2_get_temporary_value_expiry_contract.1 10 sC2 "k" "v" 5 (by decide) (by decide)

/-- C9: the expiry comparison is strict (now greater than expires_at), so a
get at the exact instant now = expires_at still returns the value and leaves
the state unchanged. -/
theorem C9_boundary_instant_returns_value (now : Int) (s : ClientState) (k v : String)
    (hget : clientGet s (tempKey k) = .found (.tempItem v now)) :
    getTemporaryValue now s k = (.ok v, s) := by
  unfold getTemporaryValue
  rw [hget]
  simp

def sC9 : ClientState := ⟨[("temp:x", .found (.tempItem "val" 7))]⟩

/-- C9 witness: a value with expires_at 7 read at time 7 is returned. -/
theorem C9_witness : getTemporaryValue 7 sC9 "x" = (.ok "val", sC9) :=
  C9_boundary_instant_returns_value 7 sC9 "x" "val" (by decide)

/-- C10: CreateUser decides prior existence solely from the error value of
the driver Get: when the Get on user.ID returns a nil map with nil error,
CreateUser reports AlreadyExists and leaves the state unchanged, even though
GetUser treats the very same outcome as NotFound. -/
theorem C10_createUser_nil_result_already_exists (s : ClientState) (u : User)
    (h : clientGet s u.id = .nilResult) :
    createUser s u = (.err ⟨ErrAlreadyExists, "User already exists"⟩, s)
      ∧ getUser s u.id = .err ⟨ErrNotFound, "User not found"⟩ := by
  constructor
  · unfold createUser
    rw [h]
  · unfold getUser
    rw [h]

def sC10 : ClientState := ⟨[("u9", .nilResult)]⟩

def uC10 : User := ⟨"u9", "nine@example.com", 0, 0⟩

/-- C10 witness: a driver that answers the key u9 with a nil map and nil
error makes CreateUser refuse with AlreadyExists while GetUser says NotFound. -/
theorem C10_witness :
    createUser sC10 uC10 = (.err ⟨ErrAlreadyExists, "User already exists"⟩, sC10)
      ∧ getUser sC10 uC10.id = .err ⟨ErrNotFound, "User not found"⟩ :=
  C10_createUser_nil_result_already_exists sC10 uC10 (by decide)

def sC8 : ClientState := ⟨[("u1", .getErr), ("u2", .getErr)]⟩

def uC8a : User := ⟨"u1", "dup@example.com", 0, 0⟩

def uC8b : User := ⟨"u2", "dup@example.com", 0, 0⟩

/-- C8 counterexample: starting from a store holding no users (a driver that
errors on missing keys), CreateUser accepts two users with distinct ids and
the same email; the reached state stores both, so email uniqueness is not an
invariant of the Storage Port operations and the second create was not
refused. -/
theorem C8_counterexample :
    (createUser sC8 uC8a).1 = .ok ()
      ∧ (createUser (createUser sC8 uC8a).2 uC8b).1 = .ok ()
      ∧ clientQueryEmail (createUser (createUser sC8 uC8a).2 uC8b).2 "dup@example.com"
          = [uC8a, uC8b]
      ∧ getUserByEmail (createUser (createUser sC8 uC8a).2 uC8b).2 "dup@example.com"
          = .ok uC8a
      ∧ uC8a.email = uC8b.email ∧ uC8a.id ≠ uC8b.id := by decide

/-- C8 amended: CreateUser enforces uniqueness of the user id, not of the
email: whenever the driver Get on the new user.ID finds a stored record, the
create is refused with AlreadyExists and no write happens.  The email field
is never consulted. -/
theorem C8_amended_id_based_refusal (s : ClientState) (u : User) (it : Item)
    (h : clientGet s u.id = .found it) :
    createUser s u = (.err ⟨ErrAlreadyExists, "User already exists"⟩, s) := by
  unfold createUser
  rw [h]

def sC8w : ClientState := ⟨[("u1", .found (.userItem ⟨"u1", "a@example.com", 0, 0⟩))]⟩

/-- C8 witness: creating a second user with the already-stored id u1 is
refused with AlreadyExists and the state is unchanged. -/
theorem C8_witness :
    createUser sC8w ⟨"u1", "b@example.com", 1, 1⟩
      = (.err ⟨ErrAlreadyExists, "User already exists"⟩, sC8w) :=
  C8_amended_id_based_refusal sC8w ⟨"u1", "b@example.com", 1, 1⟩
    (.userItem ⟨"u1", "a@example.com", 0, 0⟩) (by decide)

/-- C1: the VerifyPasskey handler is an unimplemented stub: every request
with a non-empty user_id and a non-nil credential is answered Success true.
No session handle exists in the request and no challenge state is consumed,
so a replayed second call with the same arguments also returns success
instead of the NotFound or Expired failure the claim requires. -/
theorem C1_verifyPasskey_stub_accepts_replay (uid : String) (cred : PasskeyCredential)
    (h : uid ≠ "") :
    verifyPasskey (some ⟨uid, some cred⟩) = .ok ⟨true⟩ := by
  simp [verifyPasskey, h]

/-- C1 witness: a concrete (replayed) VerifyPasskey call succeeds. -/
theorem C1_witness :
    verifyPasskey (some ⟨"u1", some ⟨"cred-1", [1, 2], "public-key", [3]⟩⟩) = .ok ⟨true⟩ :=
  C1_verifyPasskey_stub_accepts_replay "u1" ⟨"cred-1", [1, 2], "public-key", [3]⟩ (by decide)

/-- C3: the ValidateToken handler is an unimplemented stub: every non-empty
token is answered Valid true with a dummy user.  The handler consults no
revocation state (no Revoke path exists in the service), so validity is not
monotonic with revocation: tokens of revoked sessions still validate. -/
theorem C3_validateToken_ignores_revocation_state (t : String) (h : t ≠ "") :
    validateToken (some ⟨t⟩) = .ok ⟨true, some ⟨"dummy-user-id", "user@example.com"⟩⟩ := by
  simp [validateToken, h]

/-- C3 witness: a concrete token, for example one of a revoked session,
validates. -/
theorem C3_witness :
    validateToken (some ⟨"token-of-revoked-session"⟩)
      = .ok ⟨true, some ⟨"dummy-user-id", "user@example.com"⟩⟩ :=
  C3_validateToken_ignores_revocation_state "token-of-revoked-session" (by decide)

/-- C4: RegisterPasskey with the unknown user u1 (the handler never looks
users up) does not fail with InvalidArgument: it returns fixed options
whose challenge dummy-challenge is 15 bytes long, below the 16-byte minimum
the claim requires. -/
theorem C4_registerPasskey_short_dummy_challenge :
    registerPasskey (some ⟨"u1"⟩)
        = .ok ⟨some ⟨"dummy-challenge", "auth.polyid.io", "PolyID", [], "", ""⟩⟩
      ∧ String.length "dummy-challenge" = 15 := by
  constructor
  · rfl
  · rfl

/-- C6 counterexample: Authenticate with an unknown email and a wrong
password returns a success response carrying the dummy token, not an
Unauthenticated error, refuting the claim that both probe calls return an
Unauthenticated error shape. -/
theorem C6_counterexample :
    authenticate 0 (some ⟨"ghost@example.com", some (.password "wrong-password"), ""⟩)
      = .ok ⟨"dummy-token", 86400, none, false⟩ := by decide

/-- C6 amended: at any fixed instant the Authenticate handler returns the
same response for every non-nil request, so an unknown-email call and a
known-email wrong-password call are indistinguishable to the caller; but the
shared response is the dummy success, not an Unauthenticated error. -/
theorem C6_amended_uniform_response (now : Int) (r1 r2 : AuthenticateRequest) :
    authenticate now (some r1) = authenticate now (some r2) := rfl

/-- C7 counterexample: two GetMFAMethods calls with the identical request and
no intervening writes return different results when made at different clock
instants, because the handler stamps created_at with the current time. -/
theorem C7_counterexample :
    getMFAMethods 0 (some ⟨"u1"⟩) ≠ getMFAMethods 1 (some ⟨"u1"⟩) := by decide

/-- C7 amended: GetMFAMethods mutates no state (the handler reads and writes
no storage) and its result is determined by the request and the clock
instant: calls with identical arguments at the same instant return the same
fixed method list, whose created_at is the call time. -/
theorem C7_amended_deterministic_at_fixed_clock (now : Int) (r : GetMFAMethodsRequest)
    (h : r.userId ≠ "") :
    getMFAMethods now (some r) = .ok ⟨[⟨"dummy-method-id", "totp", now⟩]⟩ := by
  simp [getMFAMethods, h]

/-- C7 witness: a concrete call at instant 5 returns the dummy method stamped
with 5. -/
theorem C7_witness :
    getMFAMethods 5 (some ⟨"u1"⟩) = .ok ⟨[⟨"dummy-method-id", "totp", 5⟩]⟩ :=
  C7_amended_deterministic_at_fixed_clock 5 ⟨"u1"⟩ (by decide)

/-- C5: the temporary-secret store behind VerifyTOTP is an unimplemented stub
returning the empty string, so every VerifyTOTP call, whatever the user, the
code or the TOTP validation outcome, answers 400 BadRequest saying no setup
is in progress; neither the Unauthorized wrong-code reply nor the persist
and delete success path of the claim is reachable (and the success path, as
written, never deletes the temporary secret anyway). -/
theorem C5_verifyTOTP_always_no_setup_in_progress (validate : String → String → Bool)
    (userID code : String) :
    verifyTOTP validate userID code = .badRequestErr "No TOTP setup in progress" := rfl

end PolyId
